import Mathlib

/-!
# proktologe-exporter: address resolver and collector

A shallow embedding of `main.go`: the public-address check `IsPublicIP`, the
address resolver `externalIP`, the scan client `scanMy` and the collector
`Exporter.Collect`, followed by the properties established for them.

Conventions of the embedding:
* a Go byte is a `Nat` below 256, a byte slice is a `List Nat`, the nil slice is `[]`;
* a Go `error` is an `Option String` (`none` is the nil error);
* a Go pointer `*Ports` is an `Option Ports` (`none` is the nil pointer);
* the operating system and the network are inputs: the result of
  `net.Interfaces`, of each `iface.Addrs`, of `http.Get`, of `ioutil.ReadAll`
  and of `json.Unmarshal` are given by the environment `Env`;
* what a call does to the outside (metrics sent on the channel, calls of `http.Get`,
  HTTP requests the client issues for them, log lines, a run-time panic) is returned
  explicitly.
-/

namespace Proktologe

/-! ## Package `net`: addresses -/

/-- The Go type `net.IP`: a slice of bytes, 4 long for the short IPv4 form, 16 long for
IPv6 and for the IPv4-in-IPv6 form. The nil slice is the empty list. -/
abbrev IP := List Nat

/-- Length of an IPv4 address in bytes (`net.IPv4len`). -/
def IPv4len : Nat := 4

/-- Length of an IPv6 address in bytes (`net.IPv6len`). -/
def IPv6len : Nat := 16

/-- The 12-byte prefix `net.v4InV6Prefix` of an IPv4 address written in 16 bytes. -/
def v4InV6Prefix : List Nat := [0, 0, 0, 0, 0, 0, 0, 0, 0, 0, 0xff, 0xff]

/-- The address `net.IPv6loopback`, that is `::1`. -/
def IPv6loopback : IP := [0, 0, 0, 0, 0, 0, 0, 0, 0, 0, 0, 0, 0, 0, 0, 1]

/-- The constructor `net.IPv4(a, b, c, d)`: the 16-byte form of the IPv4 address. -/
def IPv4 (a b c d : Nat) : IP := v4InV6Prefix ++ [a, b, c, d]

/-- The helper `net.isZeros`: every byte of the slice is zero. -/
def isZeros (p : List Nat) : Bool := p.all (fun b => b == 0)

/-- The method `IP.To4`: the 4-byte form of an IPv4 address, nil when the address is
not an IPv4 address. -/
def To4 (ip : IP) : IP :=
  if ip.length = IPv4len then ip
  else if ip.length = IPv6len ∧ isZeros (ip.take 10) = true ∧
      ip.getD 10 0 = 0xff ∧ ip.getD 11 0 = 0xff then ip.drop 12
  else []

/-- The method `IP.Equal`: equality of addresses, an IPv4 address and its 16-byte form
being equal. -/
def IPEqual (ip x : IP) : Bool :=
  if ip.length = x.length then ip == x
  else if ip.length = IPv4len ∧ x.length = IPv6len then
    x.take 12 == v4InV6Prefix && ip == x.drop 12
  else if ip.length = IPv6len ∧ x.length = IPv4len then
    ip.take 12 == v4InV6Prefix && ip.drop 12 == x
  else false

/-- The method `IP.IsLoopback`. -/
def IsLoopback (ip : IP) : Bool :=
  if To4 ip ≠ [] then (To4 ip).getD 0 0 == 127
  else IPEqual ip IPv6loopback

/-- The method `IP.IsLinkLocalMulticast`. -/
def IsLinkLocalMulticast (ip : IP) : Bool :=
  if To4 ip ≠ [] then
    (To4 ip).getD 0 0 == 224 && (To4 ip).getD 1 0 == 0 && (To4 ip).getD 2 0 == 0
  else
    decide (ip.length = IPv6len) && ip.getD 0 0 == 0xff && (ip.getD 1 0 &&& 0x0f) == 0x02

/-- The method `IP.IsLinkLocalUnicast`. -/
def IsLinkLocalUnicast (ip : IP) : Bool :=
  if To4 ip ≠ [] then (To4 ip).getD 0 0 == 169 && (To4 ip).getD 1 0 == 254
  else
    decide (ip.length = IPv6len) && ip.getD 0 0 == 0xfe && (ip.getD 1 0 &&& 0xc0) == 0x80

/-- The function `net.uitoa`: decimal text of an unsigned integer. -/
def uitoa (n : Nat) : String := Nat.repr n

/-- Dotted-decimal text of the four bytes of an IPv4 address. -/
def dotted (p4 : IP) : String :=
  uitoa (p4.getD 0 0) ++ "." ++ uitoa (p4.getD 1 0) ++ "." ++
    uitoa (p4.getD 2 0) ++ "." ++ uitoa (p4.getD 3 0)

/-- The method `IP.String`, on the branches that concern IPv4: `"<nil>"` for the nil
address and dotted decimal for an IPv4 address. The remaining branches of the library
function (IPv6 text, and `"?"` followed by hexadecimal digits for a slice of a wrong
length) are rendered as `"?"` only; `externalIP` calls `String` on the result of `To4`,
which never reaches them. -/
def IPString (ip : IP) : String :=
  if ip.length = 0 then "<nil>"
  else if (To4 ip).length = IPv4len then dotted (To4 ip)
  else "?"

/-! ## `IsPublicIP` -/

/-- The function `IsPublicIP` of `main.go`. -/
def IsPublicIP (ip : IP) : Bool :=
  if IsLoopback ip || IsLinkLocalMulticast ip || IsLinkLocalUnicast ip then false
  else if To4 ip ≠ [] then
    if (To4 ip).getD 0 0 = 10 then false
    else if (To4 ip).getD 0 0 = 172 ∧ (To4 ip).getD 1 0 ≥ 16 ∧ (To4 ip).getD 1 0 ≤ 31 then false
    else if (To4 ip).getD 0 0 = 192 ∧ (To4 ip).getD 1 0 = 168 then false
    else true
  else false

/-! ## Address ranges, as the specification names them -/

/-- The 32-bit number of the IPv4 address `a.b.c.d`. -/
def ipv4Number (a b c d : Nat) : Nat := a * 2 ^ 24 + b * 2 ^ 16 + c * 2 ^ 8 + d

/-- Membership of the IPv4 address `a.b.c.d` in the block `p.q.r.s/len`: the two numbers
agree on their `len` leading bits. -/
def inBlock (a b c d : Nat) (p q r s len : Nat) : Prop :=
  ipv4Number a b c d / 2 ^ (32 - len) = ipv4Number p q r s / 2 ^ (32 - len)

/-- The IPv4 addresses the specification calls not public: the three private blocks,
loopback, link-local unicast and link-local multicast. -/
def reservedV4 (a b c d : Nat) : Prop :=
  inBlock a b c d 10 0 0 0 8 ∨ inBlock a b c d 172 16 0 0 12 ∨
  inBlock a b c d 192 168 0 0 16 ∨ inBlock a b c d 127 0 0 0 8 ∨
  inBlock a b c d 169 254 0 0 16 ∨ inBlock a b c d 224 0 0 0 24

/-! ## Package `net`: interfaces -/

/-- The flag `net.FlagUp`: the interface is administratively up. -/
def FlagUp : Nat := 1

/-- The flag `net.FlagBroadcast`. -/
def FlagBroadcast : Nat := 2

/-- The flag `net.FlagLoopback`: the interface is a loopback interface. -/
def FlagLoopback : Nat := 4

/-- A value of the interface type `net.Addr`, by dynamic type: `*net.IPNet`, `*net.IPAddr`,
or any other implementation. -/
inductive Addr where
  | IPNet (ip : IP) (mask : List Nat)
  | IPAddr (ip : IP) (zone : String)
  | other (text : String)
  deriving DecidableEq

/-- A value of `net.Interface` together with the result of calling `Addrs` on it. -/
structure Interface where
  Name : String
  Flags : Nat
  Addrs : Except String (List Addr)

/-! ## The address resolver -/

/-- The type switch of `externalIP`: the IP of an `*IPNet` or `*IPAddr`, nil otherwise. -/
def addrIP : Addr → IP
  | .IPNet ip _ => ip
  | .IPAddr ip _ => ip
  | .other _ => []

/-- The inner loop of `externalIP` over the addresses of one interface: the text of the
first address that passes, none when the loop runs to its end. -/
def scanAddrs : List Addr → Option String
  | [] => none
  | addr :: rest =>
    let ip := addrIP addr
    if ip = [] ∨ IsLoopback ip = true then scanAddrs rest
    else
      let ip := To4 ip
      if IsPublicIP ip = false then scanAddrs rest
      else if ip = [] then scanAddrs rest
      else some (IPString ip)

/-- The outer loop of `externalIP` over the interfaces. -/
def scanIfaces : List Interface → String × Option String
  | [] => ("", some "Public IP not found")
  | iface :: rest =>
    if iface.Flags &&& FlagUp = 0 then scanIfaces rest
    else if iface.Flags &&& FlagLoopback ≠ 0 then scanIfaces rest
    else
      match iface.Addrs with
      | .error err => ("", some err)
      | .ok addrs =>
        match scanAddrs addrs with
        | some text => (text, none)
        | none => scanIfaces rest

/-- The function `externalIP` of `main.go`, given the result of `net.Interfaces`. -/
def externalIP (interfaces : Except String (List Interface)) : String × Option String :=
  match interfaces with
  | .error err => ("", some err)
  | .ok ifaces => scanIfaces ifaces

/-! ## Metrics -/

/-- The constant `namespace` of `main.go`. -/
def metricNamespace : String := "proktologe"

/-- The type `Ports` of `main.go`, the decoded answer of the scan service. -/
structure Ports where
  Address : String
  Open : List Int
  deriving DecidableEq

/-- A metric descriptor `prometheus.Desc`: name, help text, names of the variable labels
and the constant labels, as pairs of name and value in order of name. -/
structure Desc where
  fqName : String
  help : String
  variableLabels : List String
  constLabels : List (String × String)
  deriving DecidableEq

/-- The type `prometheus.ValueType`. -/
inductive ValueType where
  | CounterValue
  | GaugeValue
  | UntypedValue
  deriving DecidableEq

/-- A constant metric: its descriptor, its type and its value. The values of this program
are `float64(1)` only, kept as an integer. -/
structure Metric where
  desc : Desc
  valType : ValueType
  value : Int
  deriving DecidableEq

/-- The function `prometheus.BuildFQName`. -/
def BuildFQName (ns subsystem name : String) : String :=
  if name = "" then ""
  else if ns ≠ "" ∧ subsystem ≠ "" then ns ++ "_" ++ subsystem ++ "_" ++ name
  else if ns ≠ "" then ns ++ "_" ++ name
  else if subsystem ≠ "" then subsystem ++ "_" ++ name
  else name

/-- The function `prometheus.NewDesc`. The library also checks that the names are
well formed; the names of this program are fixed and well formed. -/
def NewDesc (fqName help : String) (variableLabels : List String)
    (constLabels : List (String × String)) : Desc :=
  ⟨fqName, help, variableLabels, constLabels⟩

/-- The function `prometheus.MustNewConstMetric`, called without label values. The
library panics when the descriptor has variable labels; no descriptor built by this
program has one. -/
def MustNewConstMetric (desc : Desc) (valType : ValueType) (value : Int) : Metric :=
  ⟨desc, valType, value⟩

/-- The function `strconv.Itoa`: decimal text of a signed integer. -/
def Itoa (v : Int) : String :=
  if v < 0 then "-" ++ Nat.repr v.natAbs else Nat.repr v.natAbs

/-! ## The exporter -/

/-- The type `Exporter` of `main.go`. The field `openDesc` is the field `open` of the
source; the timeout is a `time.Duration`, a number of nanoseconds. -/
structure Exporter where
  proktologe : String
  timeout : Int
  up : Desc
  openDesc : Desc
  deriving DecidableEq

/-- The function `NewExporter` of `main.go`. -/
def NewExporter (address : String) (timeout : Int) : Exporter :=
  ⟨address, timeout,
    NewDesc (BuildFQName metricNamespace "" "up") "Could the proktologe server be reached" [] [],
    NewDesc (BuildFQName metricNamespace "" "open") "Open ports on external interface" [] []⟩

/-! ## Package `net/http` and the environment -/

/-- The part of `http.Client` that matters here: its `Timeout`, zero meaning no timeout. -/
structure Client where
  Timeout : Int
  deriving DecidableEq

/-- The variable `http.DefaultClient`, the zero `Client`: it has no timeout. -/
def DefaultClient : Client := ⟨0⟩

/-- An outbound HTTP request: method, URL and the client that issues it. -/
structure Request where
  Method : String
  URL : String
  client : Client
  deriving DecidableEq

/-- A GET request of the default client, the client behind `http.Get`. -/
def getRequest (url : String) : Request := ⟨"GET", url, DefaultClient⟩

/-- An HTTP response: the status code and the result of `ioutil.ReadAll` on the body. -/
structure Response where
  StatusCode : Int
  Body : Except String String

/-- The result of `http.Get`: a transport error (a timeout included) or a response. -/
inductive GetResult where
  | failed (err : String)
  | answered (resp : Response)

/-- What one call of `http.Get` amounts to on the network: the URLs of the requests the
client issues for it, in order, and the result of the call. The client issues no request
when it refuses the URL (one that does not parse, say), the URL of the call first
otherwise, and one more for every redirect it follows. -/
structure Exchange where
  sent : List String
  result : GetResult

/-- The world around one scrape: the result of `net.Interfaces`, what a call of `http.Get`
with a given URL amounts to, and `json.Unmarshal(body, &data)` for a nil `data *Ports`,
which gives the pointer after the call (nil for the JSON text `null`) and the error. -/
structure Env where
  Interfaces : Except String (List Interface)
  Get : String → Exchange
  Unmarshal : String → Option Ports × Option String

/-- The function `http.Get(url)`, which is `DefaultClient.Get(url)`: the requests issued,
all of them GET requests of the default client, and the result. -/
def httpGet (env : Env) (url : String) : List Request × GetResult :=
  ((env.Get url).sent.map getRequest, (env.Get url).result)

/-- A line of the log. -/
inductive LogEntry where
  | Error (msg : String)
  | Info (msg : String)
  deriving DecidableEq

/-! ## The scan client -/

/-- What `scanMy` returns and does: the two results, the requests the client issued, the
log, and the URLs of the calls of `http.Get`. -/
structure ScanOutcome where
  data : Option Ports
  err : Option String
  requests : List Request
  logs : List LogEntry
  calls : List String

/-- The method `Exporter.scanMy` of `main.go`. -/
def scanMy (e : Exporter) (env : Env) (ip : String) : ScanOutcome :=
  let data : Option Ports := none
  let url := e.proktologe ++ "/scan/" ++ ip
  let got := httpGet env url
  match got.2 with
  | .failed err => ⟨data, some err, got.1, [.Error err], [url]⟩
  | .answered resp =>
    if resp.StatusCode ≠ 200 then ⟨data, none, got.1, [], [url]⟩
    else
      match resp.Body with
      | .error err => ⟨data, some err, got.1, [.Error err], [url]⟩
      | .ok body =>
        match env.Unmarshal body with
        | (data, some err) => ⟨data, some err, got.1, [], [url]⟩
        | (data, none) => ⟨data, none, got.1, [], [url]⟩

/-! ## The collector -/

/-- What `Collect` does: the exporter after the call, the metrics sent on the channel in
order, the requests the client issued, the log, whether the call ended in a run-time
panic, and the URLs of the calls of `http.Get`. -/
structure CollectOutcome where
  exporter : Exporter
  metrics : List Metric
  requests : List Request
  logs : List LogEntry
  panicked : Bool
  calls : List String

/-- The loop of `Collect` over `data.Open`: each turn assigns a fresh descriptor to the
field `open` and sends one metric built from it. -/
def emitOpen (e : Exporter) (address : String) : List Int → Exporter × List Metric
  | [] => (e, [])
  | v :: rest =>
    let labels := [("address", address), ("port", Itoa v)]
    let e1 : Exporter := ⟨e.proktologe, e.timeout, e.up,
      NewDesc (BuildFQName metricNamespace "" "open") "Open ports on external interface" []
        labels⟩
    let m := MustNewConstMetric e1.openDesc .GaugeValue 1
    let r := emitOpen e1 address rest
    (r.1, m :: r.2)

/-- The method `Exporter.Collect` of `main.go`. -/
def Collect (e : Exporter) (env : Env) : CollectOutcome :=
  let up := MustNewConstMetric e.up .GaugeValue 1
  match externalIP env.Interfaces with
  | (_, some err) => ⟨e, [up], [], [.Error err], false, []⟩
  | (external, none) =>
    if external.length > 0 then
      let info := LogEntry.Info ("External IP address is: " ++ external)
      let r := scanMy e env external
      match r.err with
      | some err => ⟨e, [up], r.requests, info :: r.logs ++ [.Error err], false, r.calls⟩
      | none =>
        match r.data with
        | none => ⟨e, [up], r.requests, info :: r.logs, true, r.calls⟩
        | some data =>
          let l := emitOpen e data.Address data.Open
          ⟨l.1, up :: l.2, r.requests, info :: r.logs, false, r.calls⟩
    else ⟨e, [up], [], [], false, []⟩

/-! ## The resolver and the collector, as the specification words them -/

/-- An interface the resolver looks at: administratively up and not loopback. -/
def usable (iface : Interface) : Prop :=
  iface.Flags &&& FlagUp ≠ 0 ∧ iface.Flags &&& FlagLoopback = 0

instance (iface : Interface) : Decidable (usable iface) := by
  unfold usable; infer_instance

/-- The addresses an interface carries, when their enumeration succeeded. -/
def carried (iface : Interface) : List Addr :=
  match iface.Addrs with
  | .ok addrs => addrs
  | .error _ => []

/-- The addresses of the usable interfaces, in interface order, then in address order
within each interface. -/
def candidates : List Interface → List IP
  | [] => []
  | iface :: rest =>
    if usable iface then (carried iface).map addrIP ++ candidates rest else candidates rest

/-- A public IPv4 address: an IPv4 address that `IsPublicIP` accepts. -/
def publicV4 (ip : IP) : Bool := decide (To4 ip ≠ []) && IsPublicIP ip

/-- A non-loopback IPv4 address accepted by `IsPublicIP`. -/
def acceptedV4 (ip : IP) : Bool :=
  !IsLoopback ip && decide (To4 ip ≠ []) && IsPublicIP (To4 ip)

/-- The `up` metric: the descriptor without labels and the value 1. -/
def upMetric : Metric :=
  ⟨⟨"proktologe_up", "Could the proktologe server be reached", [], []⟩, .GaugeValue, 1⟩

/-- The `open` metric of one port: labels `address` and `port`, value 1. -/
def openMetric (address : String) (port : Int) : Metric :=
  ⟨⟨"proktologe_open", "Open ports on external interface", [],
    [("address", address), ("port", Itoa port)]⟩, .GaugeValue, 1⟩

/-- An exporter as a scrape finds it: built by `NewExporter`, its field `open` holding
whatever descriptor an earlier scrape left there. -/
def exporterAt (address : String) (timeout : Int) (left : Desc) : Exporter :=
  ⟨address, timeout, (NewExporter address timeout).up, left⟩

/-- The interfaces of the scenario: `lo` (up, loopback) and `eth0` (up) with the
addresses 192.168.1.5 and 8.8.8.8. -/
def scenarioIfaces : List Interface :=
  [⟨"lo", 5, .ok [.IPNet (IPv4 127 0 0 1) [255, 0, 0, 0]]⟩,
   ⟨"eth0", 3, .ok [.IPNet (IPv4 192 168 1 5) [255, 255, 255, 0],
      .IPNet (IPv4 8 8 8 8) [255, 255, 255, 255]]⟩]

/-- The result of the resolver on a list of candidate addresses, as the specification
words it: the first public IPv4 address in dotted decimal, else the error. -/
def firstPublic (ips : List IP) : String × Option String :=
  match ips.find? publicV4 with
  | some ip => (dotted (To4 ip), none)
  | none => ("", some "Public IP not found")

/-- All address enumerations of the list succeed. -/
def enumerated (ifaces : List Interface) : Prop :=
  ∀ iface ∈ ifaces, ∃ addrs, iface.Addrs = .ok addrs

/-- The body of the scenario, a JSON object with the address and three open ports. -/
def scenarioBody : String := "\x7b\"address\":\"8.8.8.8\",\"open\":[22,80,443]\x7d"

/-- The world of the scenario: the scenario interfaces, a scan service that answers 200
with the scenario body, and a decoder that decodes this body. -/
def scenarioEnv : Env :=
  ⟨.ok scenarioIfaces, fun url => ⟨[url], .answered ⟨200, .ok scenarioBody⟩⟩,
    fun body => if body = scenarioBody then (some ⟨"8.8.8.8", [22, 80, 443]⟩, none)
      else (none, some "unexpected end of JSON input")⟩

/-- A world in which the scan service answers 404. -/
def notFoundEnv : Env :=
  ⟨.ok scenarioIfaces, fun url => ⟨[url], .answered ⟨404, .ok "404 page not found"⟩⟩,
    fun _ => (none, some "invalid character")⟩

/-- A world in which the scan service answers 200 with a body that is not JSON. -/
def malformedEnv : Env :=
  ⟨.ok scenarioIfaces, fun url => ⟨[url], .answered ⟨200, .ok "<html>"⟩⟩,
    fun _ => (none, some "invalid character")⟩

/-- A world in which the scan service answers 200 with the JSON text `null`, which the
decoder accepts: it leaves the pointer nil and returns no error. -/
def nullEnv : Env :=
  ⟨.ok scenarioIfaces, fun url => ⟨[url], .answered ⟨200, .ok "null"⟩⟩,
    fun body => if body = "null" then (none, none) else (none, some "invalid character")⟩

/-- A world in which the scan service answers the request of the call with a 302 to the
same URL followed by a slash, and the request the client then issues for that URL with
200 and the scenario body. -/
def redirectEnv : Env :=
  ⟨.ok scenarioIfaces, fun url => ⟨[url, url ++ "/"], .answered ⟨200, .ok scenarioBody⟩⟩,
    fun body => if body = scenarioBody then (some ⟨"8.8.8.8", [22, 80, 443]⟩, none)
      else (none, some "unexpected end of JSON input")⟩

/-- Interfaces without any public address: `lo`, and `eth0` with 192.168.1.5 and an
IPv6 link-local address. -/
def privateIfaces : List Interface :=
  [⟨"lo", 5, .ok [.IPNet (IPv4 127 0 0 1) [255, 0, 0, 0]]⟩,
   ⟨"eth0", 3, .ok [.IPNet (IPv4 192 168 1 5) [255, 255, 255, 0],
      .IPNet [0xfe, 0x80, 0, 0, 0, 0, 0, 0, 0, 0, 0, 0, 0, 0, 0, 1] []]⟩]

/-! ## Properties of `IsPublicIP` -/

theorem To4_short (a b c d : Nat) : To4 [a, b, c, d] = [a, b, c, d] := by
  simp [To4, IPv4len]

theorem To4_IPv4 (a b c d : Nat) : To4 (IPv4 a b c d) = [a, b, c, d] := by
  simp [To4, IPv4, v4InV6Prefix, IPv4len, IPv6len, isZeros]

/-- On an IPv4 address the check looks at the first three bytes only. -/
theorem IsPublicIP_of_To4 (ip : IP) (a b c d : Nat) (h : To4 ip = [a, b, c, d]) :
    IsPublicIP ip = true ↔
      ¬ (a = 127 ∨ (a = 224 ∧ b = 0 ∧ c = 0) ∨ (a = 169 ∧ b = 254) ∨ a = 10 ∨
          (a = 172 ∧ 16 ≤ b ∧ b ≤ 31) ∨ (a = 192 ∧ b = 168)) := by
  simp only [IsPublicIP, IsLoopback, IsLinkLocalMulticast, IsLinkLocalUnicast, h]
  simp only [ne_eq, reduceCtorEq, not_false_eq_true, if_true, List.getD_cons_zero,
    List.getD_cons_succ, ge_iff_le]
  by_cases h1 : a = 127 <;> by_cases h2 : a = 224 <;> by_cases h3 : a = 169 <;>
    by_cases h4 : a = 10 <;> by_cases h5 : a = 172 <;> by_cases h6 : a = 192 <;>
    simp_all <;> omega

theorem inBlock_iff (a b c d p q r s len : Nat) :
    inBlock a b c d p q r s len ↔
      (a * 16777216 + b * 65536 + c * 256 + d) / 2 ^ (32 - len) =
        (p * 16777216 + q * 65536 + r * 256 + s) / 2 ^ (32 - len) := by
  unfold inBlock ipv4Number
  norm_num

theorem reservedV4_iff (a b c d : Nat) (hb : b < 256) (hc : c < 256) (hd : d < 256) :
    reservedV4 a b c d ↔
      (a = 127 ∨ (a = 224 ∧ b = 0 ∧ c = 0) ∨ (a = 169 ∧ b = 254) ∨ a = 10 ∨
          (a = 172 ∧ 16 ≤ b ∧ b ≤ 31) ∨ (a = 192 ∧ b = 168)) := by
  have e8 : (2 : Nat) ^ (32 - 8) = 16777216 := by norm_num
  have e12 : (2 : Nat) ^ (32 - 12) = 1048576 := by norm_num
  have e16 : (2 : Nat) ^ (32 - 16) = 65536 := by norm_num
  have e24 : (2 : Nat) ^ (32 - 24) = 256 := by norm_num
  have h10 : inBlock a b c d 10 0 0 0 8 ↔ a = 10 := by
    rw [inBlock_iff, e8]; omega
  have h172 : inBlock a b c d 172 16 0 0 12 ↔ (a = 172 ∧ 16 ≤ b ∧ b ≤ 31) := by
    rw [inBlock_iff, e12]; omega
  have h192 : inBlock a b c d 192 168 0 0 16 ↔ (a = 192 ∧ b = 168) := by
    rw [inBlock_iff, e16]; omega
  have h127 : inBlock a b c d 127 0 0 0 8 ↔ a = 127 := by
    rw [inBlock_iff, e8]; omega
  have h169 : inBlock a b c d 169 254 0 0 16 ↔ (a = 169 ∧ b = 254) := by
    rw [inBlock_iff, e16]; omega
  have h224 : inBlock a b c d 224 0 0 0 24 ↔ (a = 224 ∧ b = 0 ∧ c = 0) := by
    rw [inBlock_iff, e24]; omega
  have key := or_congr h10 (or_congr h172 (or_congr h192
    (or_congr h127 (or_congr h169 h224))))
  unfold reservedV4
  apply Iff.trans key
  clear key h10 h172 h192 h127 h169 h224
  tauto

/-- C1. For every IPv4 address `a.b.c.d` with four octets in 0..255, in its 4-byte form
and in its 16-byte form alike, `IsPublicIP` returns false when the address lies in
10.0.0.0/8, 172.16.0.0/12, 192.168.0.0/16, 127.0.0.0/8 (loopback), 169.254.0.0/16
(link-local unicast) or 224.0.0.0/24 (link-local multicast), and returns true for every
other IPv4 address. -/
theorem IsPublicIP_ipv4 (a b c d : Nat) (_ha : a < 256) (hb : b < 256)
    (hc : c < 256) (hd : d < 256) :
    (reservedV4 a b c d → IsPublicIP [a, b, c, d] = false ∧ IsPublicIP (IPv4 a b c d) = false) ∧
    (¬ reservedV4 a b c d → IsPublicIP [a, b, c, d] = true ∧ IsPublicIP (IPv4 a b c d) = true) := by
  have hr := reservedV4_iff a b c d hb hc hd
  have h4 := IsPublicIP_of_To4 [a, b, c, d] a b c d (To4_short a b c d)
  have h16 := IsPublicIP_of_To4 (IPv4 a b c d) a b c d (To4_IPv4 a b c d)
  rw [← hr] at h4 h16
  constructor
  · intro h
    constructor
    · cases hp : IsPublicIP [a, b, c, d]
      · rfl
      · exact absurd h (h4.mp hp)
    · cases hp : IsPublicIP (IPv4 a b c d)
      · rfl
      · exact absurd h (h16.mp hp)
  · intro h
    exact ⟨h4.mpr h, h16.mpr h⟩

/-- C1, at 8.8.8.8 (public) the check accepts both forms of the address. -/
theorem IsPublicIP_ipv4_witness :
    (reservedV4 8 8 8 8 → IsPublicIP [8, 8, 8, 8] = false ∧ IsPublicIP (IPv4 8 8 8 8) = false) ∧
    (¬ reservedV4 8 8 8 8 → IsPublicIP [8, 8, 8, 8] = true ∧ IsPublicIP (IPv4 8 8 8 8) = true) :=
  IsPublicIP_ipv4 8 8 8 8 (by decide) (by decide) (by decide) (by decide)

/-! ## Properties of the resolver -/

theorem To4_nil_or_length (ip : IP) : To4 ip = [] ∨ (To4 ip).length = 4 := by
  unfold To4
  split
  · right; assumption
  · split
    · rename_i h
      right
      rw [List.length_drop, h.1]
      rfl
    · left; rfl

theorem To4_idem (ip : IP) : To4 (To4 ip) = To4 ip := by
  rcases To4_nil_or_length ip with h | h
  · rw [h]; rfl
  · unfold To4 at h ⊢
    simp only [IPv4len] at h ⊢
    split <;> simp_all

theorem IsPublicIP_nil_of_To4 (ip : IP) (h : To4 ip = []) : IsPublicIP ip = false := by
  unfold IsPublicIP
  simp [h]

theorem IsPublicIP_To4 (ip : IP) : IsPublicIP (To4 ip) = IsPublicIP ip := by
  by_cases h : To4 ip = []
  · rw [IsPublicIP_nil_of_To4 ip h, h]; rfl
  · simp only [IsPublicIP, IsLoopback, IsLinkLocalMulticast, IsLinkLocalUnicast, To4_idem,
      h, ne_eq, not_false_eq_true, if_true]

theorem IsPublicIP_not_loopback (ip : IP) (h : IsPublicIP ip = true) : IsLoopback ip = false := by
  unfold IsPublicIP at h
  cases hl : IsLoopback ip
  · rfl
  · simp [hl] at h

theorem IsPublicIP_isV4 (ip : IP) (h : IsPublicIP ip = true) : To4 ip ≠ [] := by
  intro h0
  rw [IsPublicIP_nil_of_To4 ip h0] at h
  exact Bool.noConfusion h

theorem publicV4_iff (ip : IP) : publicV4 ip = true ↔ IsPublicIP ip = true := by
  unfold publicV4
  constructor
  · intro h
    simp only [Bool.and_eq_true] at h
    exact h.2
  · intro h
    simp only [Bool.and_eq_true, decide_eq_true_eq]
    exact ⟨IsPublicIP_isV4 ip h, h⟩

theorem acceptedV4_eq_publicV4 (ip : IP) : acceptedV4 ip = publicV4 ip := by
  unfold acceptedV4
  rw [IsPublicIP_To4]
  cases h : IsPublicIP ip
  · have : publicV4 ip = false := by
      cases hp : publicV4 ip
      · rfl
      · rw [(publicV4_iff ip).mp hp] at h
        exact Bool.noConfusion h
    rw [this]; simp
  · rw [(publicV4_iff ip).mpr h, IsPublicIP_not_loopback ip h]
    simp [IsPublicIP_isV4 ip h]

theorem IPString_To4 (ip : IP) (h : To4 ip ≠ []) : IPString (To4 ip) = dotted (To4 ip) := by
  have h4 : (To4 ip).length = 4 := (To4_nil_or_length ip).resolve_left h
  unfold IPString
  rw [To4_idem, h4]
  simp [IPv4len]

theorem dotted_length_pos (p4 : IP) : 0 < (dotted p4).length := by
  unfold dotted
  have h1 : (".": String).length = 1 := by decide
  simp only [String.length_append, h1]
  omega

theorem IPString_length_pos (ip : IP) : 0 < (IPString ip).length := by
  unfold IPString
  split
  · decide
  · split
    · exact dotted_length_pos _
    · decide

/-- One turn of the inner loop: an address is returned exactly when it is a public IPv4
address, and then in dotted decimal. -/
theorem scanAddrs_cons (addr : Addr) (rest : List Addr) :
    scanAddrs (addr :: rest) =
      if publicV4 (addrIP addr) = true then some (dotted (To4 (addrIP addr)))
      else scanAddrs rest := by
  rw [scanAddrs]
  by_cases hp : IsPublicIP (addrIP addr) = true
  · have h4 := IsPublicIP_isV4 _ hp
    have hl := IsPublicIP_not_loopback _ hp
    have hn : addrIP addr ≠ [] := by
      intro h0
      rw [h0] at h4
      exact h4 rfl
    simp only [hn, hl, IsPublicIP_To4, hp, h4, (publicV4_iff _).mpr hp, IPString_To4 _ h4]
    simp
  · have hq : publicV4 (addrIP addr) = false := by
      cases hq : publicV4 (addrIP addr)
      · rfl
      · exact absurd ((publicV4_iff _).mp hq) hp
    have hf : IsPublicIP (addrIP addr) = false := by
      cases hf : IsPublicIP (addrIP addr)
      · rfl
      · exact absurd hf hp
    simp only [IsPublicIP_To4, hf, hq]
    simp

theorem scanAddrs_eq_find (addrs : List Addr) :
    scanAddrs addrs =
      ((addrs.map addrIP).find? publicV4).map (fun ip => dotted (To4 ip)) := by
  induction addrs with
  | nil => rfl
  | cons addr rest ih =>
    rw [scanAddrs_cons, List.map_cons, List.find?_cons]
    cases hp : publicV4 (addrIP addr)
    · simp [ih]
    · simp

theorem scanIfaces_eq_firstPublic (ifaces : List Interface) (h : enumerated ifaces) :
    scanIfaces ifaces = firstPublic (candidates ifaces) := by
  induction ifaces with
  | nil => rfl
  | cons iface rest ih =>
    have hrest : enumerated rest := fun i hi => h i (List.mem_cons_of_mem _ hi)
    obtain ⟨addrs, ha⟩ := h iface (List.mem_cons_self _ _)
    rw [scanIfaces, candidates]
    by_cases hup : iface.Flags &&& FlagUp = 0
    · have : ¬ usable iface := fun hu => hu.1 hup
      simp only [hup, if_true, this, if_false]
      exact ih hrest
    · by_cases hlo : iface.Flags &&& FlagLoopback = 0
      · have hu : usable iface := ⟨hup, hlo⟩
        simp only [hup, if_false, hlo, ne_eq, not_true_eq_false, hu, if_true, ha, carried]
        rw [scanAddrs_eq_find]
        unfold firstPublic
        rw [List.find?_append]
        cases hf : List.find? publicV4 (List.map addrIP addrs) with
        | none =>
          simp only [Option.map_none', Option.none_or]
          rw [ih hrest]
          rfl
        | some ip => simp
      · have : ¬ usable iface := fun hu => hlo hu.2
        simp only [hup, if_false, hlo, ne_eq, not_false_eq_true, if_true, this]
        exact ih hrest

theorem find_first {α : Type} (p : α → Bool) (l : List α) (a : α) (h : l.find? p = some a) :
    p a = true ∧ ∃ pre post, l = pre ++ a :: post ∧ ∀ x ∈ pre, p x = false := by
  induction l with
  | nil => simp at h
  | cons x rest ih =>
    rw [List.find?_cons] at h
    cases hx : p x
    · rw [hx] at h
      obtain ⟨hp, pre, post, hl, hpre⟩ := ih h
      refine ⟨hp, x :: pre, post, by rw [hl]; rfl, ?_⟩
      intro y hy
      rcases List.mem_cons.mp hy with rfl | hy
      · exact hx
      · exact hpre y hy
    · rw [hx] at h
      have : x = a := Option.some.inj h
      subst this
      exact ⟨hx, [], rest, rfl, fun y hy => absurd hy (List.not_mem_nil y)⟩

theorem mem_candidates (ifaces : List Interface) (ip : IP) :
    ip ∈ candidates ifaces ↔
      ∃ iface ∈ ifaces, usable iface ∧ ∃ addr ∈ carried iface, addrIP addr = ip := by
  induction ifaces with
  | nil => simp [candidates]
  | cons iface rest ih =>
    rw [candidates]
    by_cases hu : usable iface
    · simp only [hu, if_true, List.mem_append, List.mem_map, ih, List.mem_cons]
      constructor
      · rintro (⟨addr, ha, he⟩ | ⟨i, hi, hiu, addr, ha, he⟩)
        · exact ⟨iface, Or.inl rfl, hu, addr, ha, he⟩
        · exact ⟨i, Or.inr hi, hiu, addr, ha, he⟩
      · rintro ⟨i, hi | hi, hiu, addr, ha, he⟩
        · subst hi
          exact Or.inl ⟨addr, ha, he⟩
        · exact Or.inr ⟨i, hi, hiu, addr, ha, he⟩
    · simp only [hu, if_false, ih, List.mem_cons]
      constructor
      · rintro ⟨i, hi, hiu, addr, ha, he⟩
        exact ⟨i, Or.inr hi, hiu, addr, ha, he⟩
      · rintro ⟨i, hi | hi, hiu, addr, ha, he⟩
        · subst hi
          exact absurd hiu hu
        · exact ⟨i, hi, hiu, addr, ha, he⟩

theorem scanAddrs_length_pos (addrs : List Addr) (a : String) (h : scanAddrs addrs = some a) :
    0 < a.length := by
  rw [scanAddrs_eq_find] at h
  cases hf : List.find? publicV4 (List.map addrIP addrs) with
  | none => rw [hf] at h; simp at h
  | some ip =>
    rw [hf] at h
    simp only [Option.map_some', Option.some.injEq] at h
    rw [← h]
    exact dotted_length_pos _

theorem scanIfaces_length_pos (ifaces : List Interface) (a : String)
    (h : scanIfaces ifaces = (a, none)) : 0 < a.length := by
  induction ifaces with
  | nil => simp [scanIfaces] at h
  | cons iface rest ih =>
    rw [scanIfaces] at h
    split at h
    · exact ih h
    · split at h
      · exact ih h
      · split at h
        · simp at h
        · split at h
          · rename_i text hs
            simp only [Prod.mk.injEq, and_true] at h
            rw [← h]
            exact scanAddrs_length_pos _ _ hs
          · exact ih h

/-- A successful resolver never returns the empty text. -/
theorem externalIP_length_pos (interfaces : Except String (List Interface)) (a : String)
    (h : externalIP interfaces = (a, none)) : 0 < a.length := by
  unfold externalIP at h
  split at h
  · simp at h
  · exact scanIfaces_length_pos _ _ h

/-! ## Properties of the collector -/

theorem emitOpen_metrics (e : Exporter) (address : String) (ports : List Int) :
    (emitOpen e address ports).2 = ports.map (openMetric address) := by
  induction ports generalizing e with
  | nil => rfl
  | cons v rest ih =>
    rw [emitOpen]
    simp only [List.map_cons, ih]
    rfl

theorem emitOpen_exporter (e : Exporter) (address : String) (ports : List Int) :
    (emitOpen e address ports).1.proktologe = e.proktologe ∧
    (emitOpen e address ports).1.timeout = e.timeout ∧
    (emitOpen e address ports).1.up = e.up := by
  induction ports generalizing e with
  | nil => exact ⟨rfl, rfl, rfl⟩
  | cons v rest ih =>
    rw [emitOpen]
    exact ih _

/-- The scan client reads the base URL of the exporter and nothing else of it. -/
theorem scanMy_congr (e1 e2 : Exporter) (env : Env) (ip : String)
    (h : e1.proktologe = e2.proktologe) : scanMy e1 env ip = scanMy e2 env ip := by
  unfold scanMy
  rw [h]

theorem scanMy_requests (e : Exporter) (env : Env) (ip : String) :
    (scanMy e env ip).requests =
      (env.Get (e.proktologe ++ "/scan/" ++ ip)).sent.map getRequest := by
  unfold scanMy
  simp only
  split
  · rfl
  · split
    · rfl
    · split
      · rfl
      · split <;> rfl

theorem scanMy_calls (e : Exporter) (env : Env) (ip : String) :
    (scanMy e env ip).calls = [e.proktologe ++ "/scan/" ++ ip] := by
  unfold scanMy
  simp only
  split
  · rfl
  · split
    · rfl
    · split
      · rfl
      · split <;> rfl

/-- The collector when the resolver fails. -/
theorem Collect_resolver_failed (e : Exporter) (env : Env) (s err : String)
    (h : externalIP env.Interfaces = (s, some err)) :
    Collect e env =
      ⟨e, [MustNewConstMetric e.up .GaugeValue 1], [], [.Error err], false, []⟩ := by
  unfold Collect
  rw [h]

/-- The collector when the resolver succeeds, by the outcome of the scan client. -/
theorem Collect_resolved (e : Exporter) (env : Env) (a : String)
    (h : externalIP env.Interfaces = (a, none)) :
    Collect e env =
      match (scanMy e env a).err, (scanMy e env a).data with
      | some err, _ =>
        ⟨e, [MustNewConstMetric e.up .GaugeValue 1], (scanMy e env a).requests,
          LogEntry.Info ("External IP address is: " ++ a) ::
            (scanMy e env a).logs ++ [.Error err], false, (scanMy e env a).calls⟩
      | none, none =>
        ⟨e, [MustNewConstMetric e.up .GaugeValue 1], (scanMy e env a).requests,
          LogEntry.Info ("External IP address is: " ++ a) :: (scanMy e env a).logs, true,
          (scanMy e env a).calls⟩
      | none, some data =>
        ⟨(emitOpen e data.Address data.Open).1,
          MustNewConstMetric e.up .GaugeValue 1 :: (emitOpen e data.Address data.Open).2,
          (scanMy e env a).requests,
          LogEntry.Info ("External IP address is: " ++ a) :: (scanMy e env a).logs, false,
          (scanMy e env a).calls⟩ := by
  have hpos := externalIP_length_pos _ _ h
  unfold Collect
  rw [h]
  simp only [gt_iff_lt, hpos, if_true]
  cases (scanMy e env a).err with
  | some err => rfl
  | none =>
    cases (scanMy e env a).data with
    | none => rfl
    | some data => rfl

theorem up_of_exporterAt (address : String) (timeout : Int) (left : Desc) :
    MustNewConstMetric (exporterAt address timeout left).up .GaugeValue 1 = upMetric := by
  have h : BuildFQName metricNamespace "" "up" = "proktologe_up" := by decide
  simp only [exporterAt, NewExporter, MustNewConstMetric, NewDesc, upMetric, h]

theorem enumerated_scenario : enumerated scenarioIfaces := by
  intro iface hi
  simp only [scenarioIfaces, List.mem_cons, List.mem_singleton, List.not_mem_nil,
    or_false] at hi
  rcases hi with rfl | rfl
  · exact ⟨_, rfl⟩
  · exact ⟨_, rfl⟩

theorem enumerated_private : enumerated privateIfaces := by
  intro iface hi
  simp only [privateIfaces, List.mem_cons, List.mem_singleton, List.not_mem_nil,
    or_false] at hi
  rcases hi with rfl | rfl
  · exact ⟨_, rfl⟩
  · exact ⟨_, rfl⟩

/-- C2. For every list of interfaces whose address enumerations succeed, if some interface
that is up and not loopback carries a public IPv4 address, `externalIP` succeeds and
returns the dotted-decimal text of the first such address, interfaces taken in list order
and addresses in order within each interface. -/
theorem externalIP_first_public (ifaces : List Interface) (henum : enumerated ifaces)
    (hex : ∃ iface ∈ ifaces, usable iface ∧
      ∃ addr ∈ carried iface, publicV4 (addrIP addr) = true) :
    ∃ pre ip post, candidates ifaces = pre ++ ip :: post ∧
      (∀ x ∈ pre, publicV4 x = false) ∧ publicV4 ip = true ∧
      externalIP (.ok ifaces) = (dotted (To4 ip), none) := by
  obtain ⟨iface, hi, hu, addr, ha, hp⟩ := hex
  have hmem : addrIP addr ∈ candidates ifaces :=
    (mem_candidates ifaces _).mpr ⟨iface, hi, hu, addr, ha, rfl⟩
  have hres : externalIP (.ok ifaces) = firstPublic (candidates ifaces) :=
    scanIfaces_eq_firstPublic ifaces henum
  cases hf : (candidates ifaces).find? publicV4 with
  | none =>
    have := List.find?_eq_none.mp hf _ hmem
    exact absurd hp this
  | some ip =>
    obtain ⟨hpip, pre, post, hl, hpre⟩ := find_first publicV4 _ ip hf
    refine ⟨pre, ip, post, hl, hpre, hpip, ?_⟩
    rw [hres, firstPublic, hf]

/-- C2, on the scenario `lo` (loopback), `eth0` (up) with 192.168.1.5 and 8.8.8.8: the
resolver returns "8.8.8.8". -/
theorem externalIP_first_public_witness :
    enumerated scenarioIfaces ∧
    (∃ pre ip post, candidates scenarioIfaces = pre ++ ip :: post ∧
      (∀ x ∈ pre, publicV4 x = false) ∧ publicV4 ip = true ∧
      externalIP (.ok scenarioIfaces) = (dotted (To4 ip), none)) ∧
    externalIP (.ok scenarioIfaces) = ("8.8.8.8", none) :=
  ⟨enumerated_scenario,
    externalIP_first_public scenarioIfaces enumerated_scenario
      ⟨⟨"eth0", 3, .ok [.IPNet (IPv4 192 168 1 5) [255, 255, 255, 0],
          .IPNet (IPv4 8 8 8 8) [255, 255, 255, 255]]⟩,
        by simp [scenarioIfaces], by decide,
        .IPNet (IPv4 8 8 8 8) [255, 255, 255, 255], by simp [carried], by decide⟩,
    by decide⟩

/-- The collector when the scan client fails in transport: only `up` is sent. -/
theorem Collect_transport_failed (e : Exporter) (env : Env) (a err : String)
    (h : externalIP env.Interfaces = (a, none))
    (hg : (env.Get (e.proktologe ++ "/scan/" ++ a)).result = .failed err) :
    (Collect e env).metrics = [MustNewConstMetric e.up .GaugeValue 1] ∧
    (Collect e env).panicked = false := by
  have hs : (scanMy e env a).err = some err := by
    unfold scanMy
    simp only [httpGet, hg]
  rw [Collect_resolved e env a h, hs]
  exact ⟨rfl, rfl⟩

/-- C3, at a 404 answer. The scan client returns a nil result with a nil error, and the
collector, reading `data.Open` through the nil pointer, ends in a panic after `up`. -/
theorem Collect_non200_panics :
    (scanMy (NewExporter "http://127.0.0.1" 60000000000) notFoundEnv "8.8.8.8").data = none ∧
    (scanMy (NewExporter "http://127.0.0.1" 60000000000) notFoundEnv "8.8.8.8").err = none ∧
    externalIP notFoundEnv.Interfaces = ("8.8.8.8", none) ∧
    (Collect (NewExporter "http://127.0.0.1" 60000000000) notFoundEnv).metrics = [upMetric] ∧
    (Collect (NewExporter "http://127.0.0.1" 60000000000) notFoundEnv).panicked = true := by
  decide

/-- C4, at a 200 answer whose body is the JSON text `null`. The decoder accepts the body
and leaves the pointer nil, the scan client returns a nil result with a nil error, and the
collector, reading `data.Open` through the nil pointer, ends in a panic after `up`. -/
theorem Collect_null_body_panics :
    externalIP nullEnv.Interfaces = ("8.8.8.8", none) ∧
    (nullEnv.Get ("http://127.0.0.1" ++ "/scan/" ++ "8.8.8.8")).sent =
      ["http://127.0.0.1/scan/8.8.8.8"] ∧
    nullEnv.Unmarshal "null" = (none, none) ∧
    (scanMy (NewExporter "http://127.0.0.1" 60000000000) nullEnv "8.8.8.8").data = none ∧
    (scanMy (NewExporter "http://127.0.0.1" 60000000000) nullEnv "8.8.8.8").err = none ∧
    (Collect (NewExporter "http://127.0.0.1" 60000000000) nullEnv).metrics = [upMetric] ∧
    (Collect (NewExporter "http://127.0.0.1" 60000000000) nullEnv).panicked = true := by
  decide

/-- The collector on a 200 answer whose body decodes without error into a result that is
not nil: it sends `up` and then one `open` metric per element of the result's `Open`, in
the same order, each with value 1, label `address` the result's `Address` and label `port`
the decimal text of the port. -/
theorem Collect_open_metrics (address : String) (timeout : Int) (left : Desc) (env : Env)
    (a body : String) (data : Ports)
    (h : externalIP env.Interfaces = (a, none))
    (hg : (env.Get (address ++ "/scan/" ++ a)).result = .answered ⟨200, .ok body⟩)
    (hd : env.Unmarshal body = (some data, none)) :
    (Collect (exporterAt address timeout left) env).metrics =
      upMetric :: data.Open.map (openMetric data.Address) ∧
    (Collect (exporterAt address timeout left) env).panicked = false := by
  have hs : (scanMy (exporterAt address timeout left) env a).err = none ∧
      (scanMy (exporterAt address timeout left) env a).data = some data := by
    unfold scanMy
    simp only [httpGet, exporterAt, hg, hd]
    exact ⟨rfl, rfl⟩
  rw [Collect_resolved _ env a h, hs.1, hs.2]
  simp only [emitOpen_metrics, up_of_exporterAt, and_self]

/-- The collector on the scenario body: one `up` metric, then three `open` metrics with
the ports "22", "80" and "443". -/
theorem Collect_open_metrics_witness :
    (Collect (exporterAt "http://127.0.0.1" 60000000000
        (NewExporter "http://127.0.0.1" 60000000000).openDesc) scenarioEnv).metrics =
      [upMetric,
        ⟨⟨"proktologe_open", "Open ports on external interface", [],
          [("address", "8.8.8.8"), ("port", "22")]⟩, .GaugeValue, 1⟩,
        ⟨⟨"proktologe_open", "Open ports on external interface", [],
          [("address", "8.8.8.8"), ("port", "80")]⟩, .GaugeValue, 1⟩,
        ⟨⟨"proktologe_open", "Open ports on external interface", [],
          [("address", "8.8.8.8"), ("port", "443")]⟩, .GaugeValue, 1⟩] ∧
    (Collect (exporterAt "http://127.0.0.1" 60000000000
        (NewExporter "http://127.0.0.1" 60000000000).openDesc) scenarioEnv).panicked = false :=
  Collect_open_metrics "http://127.0.0.1" 60000000000 _ scenarioEnv "8.8.8.8" scenarioBody
    ⟨"8.8.8.8", [22, 80, 443]⟩ (by decide) (by rfl) (by decide)

theorem openMetric_not_up (address : String) (v : Int) :
    (openMetric address v).desc.fqName ≠ "proktologe_up" := by
  show "proktologe_open" ≠ "proktologe_up"
  decide

/-- The metrics of a scrape: `up` first, then `open` metrics of the decoded result. -/
theorem Collect_metrics_shape (e : Exporter) (env : Env) :
    (Collect e env).metrics = [MustNewConstMetric e.up .GaugeValue 1] ∨
    ∃ data, (scanMy e env (externalIP env.Interfaces).1).data = some data ∧
      (Collect e env).metrics =
        MustNewConstMetric e.up .GaugeValue 1 :: data.Open.map (openMetric data.Address) := by
  rcases hx : externalIP env.Interfaces with ⟨a, _ | err⟩
  · rw [Collect_resolved e env a hx]
    cases he : (scanMy e env a).err with
    | some err => exact Or.inl rfl
    | none =>
      cases hd : (scanMy e env a).data with
      | none => exact Or.inl rfl
      | some data =>
        right
        exact ⟨data, rfl, by simp only [emitOpen_metrics]⟩
  · rw [Collect_resolver_failed e env a err hx]
    exact Or.inl rfl

/-- C5. Whatever the outcome of a scrape (resolver failure, transport failure, non-200
status, decode failure, success with any list of open ports), the metrics `Collect` sends
begin with the `up` metric, which has no labels and the value 1, and no later metric of
the scrape is an `up` metric. -/
theorem Collect_up_first_once (address : String) (timeout : Int) (left : Desc) (env : Env) :
    ∃ m rest, (Collect (exporterAt address timeout left) env).metrics = m :: rest ∧
      m.desc.fqName = "proktologe_up" ∧ m.desc.variableLabels = [] ∧
      m.desc.constLabels = [] ∧ m.valType = .GaugeValue ∧ m.value = 1 ∧
      ∀ x ∈ rest, x.desc.fqName ≠ "proktologe_up" := by
  rcases Collect_metrics_shape (exporterAt address timeout left) env with h | ⟨data, _, h⟩
  · rw [up_of_exporterAt] at h
    exact ⟨upMetric, [], h, rfl, rfl, rfl, rfl, rfl,
      fun x hx => absurd hx (List.not_mem_nil x)⟩
  · rw [up_of_exporterAt] at h
    refine ⟨upMetric, _, h, rfl, rfl, rfl, rfl, rfl, ?_⟩
    intro x hx
    obtain ⟨v, _, rfl⟩ := List.mem_map.mp hx
    exact openMetric_not_up _ v

/-- C6. For every list of interfaces whose address enumerations succeed, `externalIP`
fails with "Public IP not found" and the empty text exactly when no interface that is up
and not loopback carries a non-loopback IPv4 address accepted by `IsPublicIP`; and then
`Collect` sends only `up` and issues no request. -/
theorem externalIP_not_found_iff (ifaces : List Interface) (henum : enumerated ifaces) :
    (externalIP (.ok ifaces) = ("", some "Public IP not found") ↔
      ¬ ∃ iface ∈ ifaces, usable iface ∧
        ∃ addr ∈ carried iface, acceptedV4 (addrIP addr) = true) ∧
    (externalIP (.ok ifaces) = ("", some "Public IP not found") →
      ∀ (address : String) (timeout : Int) (left : Desc)
        (get : String → Exchange) (unmarshal : String → Option Ports × Option String),
        (Collect (exporterAt address timeout left) ⟨.ok ifaces, get, unmarshal⟩).metrics =
          [upMetric] ∧
        (Collect (exporterAt address timeout left) ⟨.ok ifaces, get, unmarshal⟩).requests =
          [] ∧
        (Collect (exporterAt address timeout left) ⟨.ok ifaces, get, unmarshal⟩).panicked =
          false) := by
  have hres : externalIP (.ok ifaces) = firstPublic (candidates ifaces) :=
    scanIfaces_eq_firstPublic ifaces henum
  constructor
  · constructor
    · intro h ⟨iface, hi, hu, addr, ha, hp⟩
      rw [acceptedV4_eq_publicV4] at hp
      have hmem : addrIP addr ∈ candidates ifaces :=
        (mem_candidates ifaces _).mpr ⟨iface, hi, hu, addr, ha, rfl⟩
      rw [hres, firstPublic] at h
      cases hf : (candidates ifaces).find? publicV4 with
      | none => exact absurd hp (List.find?_eq_none.mp hf _ hmem)
      | some ip =>
        rw [hf] at h
        simp at h
    · intro h
      rw [hres, firstPublic]
      cases hf : (candidates ifaces).find? publicV4 with
      | none => rfl
      | some ip =>
        exfalso
        obtain ⟨hp, pre, post, hl, _⟩ := find_first publicV4 _ ip hf
        have hmem : ip ∈ candidates ifaces := by
          rw [hl]
          exact List.mem_append_right _ (List.mem_cons_self _ _)
        obtain ⟨iface, hi, hu, addr, ha, he⟩ := (mem_candidates ifaces ip).mp hmem
        apply h
        refine ⟨iface, hi, hu, addr, ha, ?_⟩
        rw [acceptedV4_eq_publicV4, he]
        exact hp
  · intro h address timeout left get unmarshal
    rw [Collect_resolver_failed _ ⟨.ok ifaces, get, unmarshal⟩ "" "Public IP not found" h,
      up_of_exporterAt]
    exact ⟨rfl, rfl, rfl⟩

/-- C6, on interfaces that carry only a private and a link-local address. -/
theorem externalIP_not_found_iff_witness :
    enumerated privateIfaces ∧
    externalIP (.ok privateIfaces) = ("", some "Public IP not found") ∧
    (¬ ∃ iface ∈ privateIfaces, usable iface ∧
        ∃ addr ∈ carried iface, acceptedV4 (addrIP addr) = true) ∧
    (Collect (exporterAt "http://127.0.0.1" 60000000000
        (NewExporter "http://127.0.0.1" 60000000000).openDesc)
      ⟨.ok privateIfaces, scenarioEnv.Get, scenarioEnv.Unmarshal⟩).metrics = [upMetric] ∧
    (Collect (exporterAt "http://127.0.0.1" 60000000000
        (NewExporter "http://127.0.0.1" 60000000000).openDesc)
      ⟨.ok privateIfaces, scenarioEnv.Get, scenarioEnv.Unmarshal⟩).requests = [] :=
  have hfail : externalIP (.ok privateIfaces) = ("", some "Public IP not found") := by decide
  have hthm := externalIP_not_found_iff privateIfaces enumerated_private
  have hc := hthm.2 hfail "http://127.0.0.1" 60000000000
    (NewExporter "http://127.0.0.1" 60000000000).openDesc scenarioEnv.Get scenarioEnv.Unmarshal
  ⟨enumerated_private, hfail, hthm.1.mp hfail, hc.1, hc.2.1⟩

/-- C7. For every scrape in which the resolver succeeds and the scan service answers 200
with a body that fails to decode, `scanMy` returns a non-nil error and `Collect` sends the
single `up` metric and no `open` metric. -/
theorem Collect_decode_failed (address : String) (timeout : Int) (left : Desc) (env : Env)
    (a body err : String) (partialData : Option Ports)
    (h : externalIP env.Interfaces = (a, none))
    (hg : (env.Get (address ++ "/scan/" ++ a)).result = .answered ⟨200, .ok body⟩)
    (hd : env.Unmarshal body = (partialData, some err)) :
    (scanMy (exporterAt address timeout left) env a).err ≠ none ∧
    (Collect (exporterAt address timeout left) env).metrics = [upMetric] ∧
    (Collect (exporterAt address timeout left) env).panicked = false := by
  have hs : (scanMy (exporterAt address timeout left) env a).err = some err := by
    unfold scanMy
    simp only [httpGet, exporterAt, hg, hd]
    rfl
  rw [Collect_resolved _ env a h, hs]
  refine ⟨fun hn => Option.noConfusion hn, ?_, rfl⟩
  show [MustNewConstMetric (exporterAt address timeout left).up .GaugeValue 1] = [upMetric]
  rw [up_of_exporterAt]

/-- C7, on a 200 answer whose body is an HTML page. -/
theorem Collect_decode_failed_witness :
    (scanMy (exporterAt "http://127.0.0.1" 60000000000
        (NewExporter "http://127.0.0.1" 60000000000).openDesc) malformedEnv "8.8.8.8").err ≠
      none ∧
    (Collect (exporterAt "http://127.0.0.1" 60000000000
        (NewExporter "http://127.0.0.1" 60000000000).openDesc) malformedEnv).metrics =
      [upMetric] ∧
    (Collect (exporterAt "http://127.0.0.1" 60000000000
        (NewExporter "http://127.0.0.1" 60000000000).openDesc) malformedEnv).panicked = false :=
  Collect_decode_failed "http://127.0.0.1" 60000000000 _ malformedEnv "8.8.8.8" "<html>"
    "invalid character" none (by decide) (by rfl) (by rfl)

/-- C8, at an exporter built with a timeout of 60 seconds. The timeout is stored in the
exporter, and the one request of the scrape is issued by the default client, whose timeout
is zero (none); an exporter built with another timeout issues the same request. -/
theorem scanMy_ignores_timeout :
    (NewExporter "http://127.0.0.1" 60000000000).timeout = 60000000000 ∧
    (Collect (NewExporter "http://127.0.0.1" 60000000000) scenarioEnv).requests =
      [⟨"GET", "http://127.0.0.1/scan/8.8.8.8", ⟨0⟩⟩] ∧
    (Collect (NewExporter "http://127.0.0.1" 1) scenarioEnv).requests =
      (Collect (NewExporter "http://127.0.0.1" 60000000000) scenarioEnv).requests := by
  decide

/-- C9 as stated fails on a redirect. The resolver succeeds with 8.8.8.8, the scan service
answers the GET of `http://127.0.0.1/scan/8.8.8.8` with a 302, and the client behind
`http.Get` follows it: the scrape issues two requests, not exactly one. -/
theorem Collect_single_request_refuted :
    externalIP redirectEnv.Interfaces = ("8.8.8.8", none) ∧
    (Collect (exporterAt "http://127.0.0.1" 60000000000
        (NewExporter "http://127.0.0.1" 60000000000).openDesc) redirectEnv).requests =
      [⟨"GET", "http://127.0.0.1/scan/8.8.8.8", ⟨0⟩⟩,
        ⟨"GET", "http://127.0.0.1/scan/8.8.8.8/", ⟨0⟩⟩] ∧
    ¬ ∃ r, (Collect (exporterAt "http://127.0.0.1" 60000000000
        (NewExporter "http://127.0.0.1" 60000000000).openDesc) redirectEnv).requests = [r] ∧
      r.Method = "GET" ∧ r.URL = "http://127.0.0.1" ++ "/scan/" ++ "8.8.8.8" := by
  have h2 : (Collect (exporterAt "http://127.0.0.1" 60000000000
      (NewExporter "http://127.0.0.1" 60000000000).openDesc) redirectEnv).requests =
      [⟨"GET", "http://127.0.0.1/scan/8.8.8.8", ⟨0⟩⟩,
        ⟨"GET", "http://127.0.0.1/scan/8.8.8.8/", ⟨0⟩⟩] := by decide
  refine ⟨by decide, h2, ?_⟩
  rintro ⟨r, hr, _⟩
  rw [h2] at hr
  simp at hr

/-- C9, amended. For every scrape in which the resolver succeeds with the address `a`, on
an exporter whose base URL is `b`, `Collect` calls `http.Get` exactly once, with the URL
`b ++ "/scan/" ++ a`, and never again whatever the result; the requests of the scrape are
those the client issues for this one call, all of them GET requests; and when the client
issues the request of the call alone, they are exactly one GET of that URL. -/
theorem Collect_single_call (b : String) (timeout : Int) (left : Desc) (env : Env)
    (a : String) (h : externalIP env.Interfaces = (a, none)) :
    (Collect (exporterAt b timeout left) env).calls = [b ++ "/scan/" ++ a] ∧
    (Collect (exporterAt b timeout left) env).requests =
      (env.Get (b ++ "/scan/" ++ a)).sent.map getRequest ∧
    ((env.Get (b ++ "/scan/" ++ a)).sent = [b ++ "/scan/" ++ a] →
      ∃ r, (Collect (exporterAt b timeout left) env).requests = [r] ∧
        r.Method = "GET" ∧ r.URL = b ++ "/scan/" ++ a) := by
  have hr : (Collect (exporterAt b timeout left) env).requests =
      (env.Get (b ++ "/scan/" ++ a)).sent.map getRequest := by
    have hs := scanMy_requests (exporterAt b timeout left) env a
    rw [Collect_resolved _ env a h]
    cases (scanMy (exporterAt b timeout left) env a).err with
    | some err => exact hs
    | none =>
      cases (scanMy (exporterAt b timeout left) env a).data with
      | none => exact hs
      | some data => exact hs
  have hc : (Collect (exporterAt b timeout left) env).calls = [b ++ "/scan/" ++ a] := by
    have hs := scanMy_calls (exporterAt b timeout left) env a
    rw [Collect_resolved _ env a h]
    cases (scanMy (exporterAt b timeout left) env a).err with
    | some err => exact hs
    | none =>
      cases (scanMy (exporterAt b timeout left) env a).data with
      | none => exact hs
      | some data => exact hs
  refine ⟨hc, hr, ?_⟩
  intro hsent
  refine ⟨getRequest (b ++ "/scan/" ++ a), ?_, rfl, rfl⟩
  rw [hr, hsent]
  rfl

/-- C9 amended, on a scan service that answers 404 directly: one call of `http.Get` and
one GET of `http://127.0.0.1/scan/8.8.8.8`. -/
theorem Collect_single_call_witness :
    (Collect (exporterAt "http://127.0.0.1" 60000000000
        (NewExporter "http://127.0.0.1" 60000000000).openDesc) notFoundEnv).calls =
      ["http://127.0.0.1/scan/8.8.8.8"] ∧
    (Collect (exporterAt "http://127.0.0.1" 60000000000
        (NewExporter "http://127.0.0.1" 60000000000).openDesc) notFoundEnv).requests =
      [⟨"GET", "http://127.0.0.1/scan/8.8.8.8", ⟨0⟩⟩] ∧
    ∃ r, (Collect (exporterAt "http://127.0.0.1" 60000000000
        (NewExporter "http://127.0.0.1" 60000000000).openDesc) notFoundEnv).requests = [r] ∧
      r.Method = "GET" ∧ r.URL = "http://127.0.0.1" ++ "/scan/" ++ "8.8.8.8" :=
  have t := Collect_single_call "http://127.0.0.1" 60000000000
    (NewExporter "http://127.0.0.1" 60000000000).openDesc notFoundEnv "8.8.8.8" (by decide)
  ⟨t.1, t.2.1, t.2.2 (by decide)⟩

/-- The collector leaves the base URL, the timeout and the `up` descriptor as they were. -/
theorem Collect_exporter (e : Exporter) (env : Env) :
    (Collect e env).exporter.proktologe = e.proktologe ∧
    (Collect e env).exporter.timeout = e.timeout ∧
    (Collect e env).exporter.up = e.up := by
  rcases hx : externalIP env.Interfaces with ⟨a, _ | err⟩
  · rw [Collect_resolved e env a hx]
    cases (scanMy e env a).err with
    | some err => exact ⟨rfl, rfl, rfl⟩
    | none =>
      cases (scanMy e env a).data with
      | none => exact ⟨rfl, rfl, rfl⟩
      | some data => exact emitOpen_exporter e data.Address data.Open
  · rw [Collect_resolver_failed e env a err hx]
    exact ⟨rfl, rfl, rfl⟩

/-- The metrics of a scrape depend on the exporter through its base URL and its `up`
descriptor only. -/
theorem Collect_metrics_congr (e1 e2 : Exporter) (env : Env)
    (hp : e1.proktologe = e2.proktologe) (hu : e1.up = e2.up) :
    (Collect e1 env).metrics = (Collect e2 env).metrics := by
  rcases hx : externalIP env.Interfaces with ⟨a, _ | err⟩
  · rw [Collect_resolved e1 env a hx, Collect_resolved e2 env a hx,
      scanMy_congr e1 e2 env a hp, hu]
    cases (scanMy e2 env a).err with
    | some err => rfl
    | none =>
      cases (scanMy e2 env a).data with
      | none => rfl
      | some data => simp only [emitOpen_metrics]
  · rw [Collect_resolver_failed e1 env a err hx, Collect_resolver_failed e2 env a err hx, hu]

/-- C10. Scrapes do not accumulate. Replacing the `open` descriptor of an exporter by any
other leaves the metrics of a scrape unchanged; the metrics of a second scrape are those
the exporter would send had the first not taken place; and every metric of the second
scrape other than `up` is the `open` metric of a port of the second scrape's decoded
result. -/
theorem Collect_no_accumulation (e : Exporter) (left : Desc) (env1 env2 : Env) :
    (Collect ⟨e.proktologe, e.timeout, e.up, left⟩ env2).metrics = (Collect e env2).metrics ∧
    (Collect (Collect e env1).exporter env2).metrics = (Collect e env2).metrics ∧
    ∀ m ∈ (Collect (Collect e env1).exporter env2).metrics,
      m = MustNewConstMetric e.up .GaugeValue 1 ∨
      ∃ data, (scanMy e env2 (externalIP env2.Interfaces).1).data = some data ∧
        ∃ v ∈ data.Open, m = openMetric data.Address v := by
  have h2 : (Collect (Collect e env1).exporter env2).metrics = (Collect e env2).metrics :=
    Collect_metrics_congr _ e env2 (Collect_exporter e env1).1 (Collect_exporter e env1).2.2
  refine ⟨Collect_metrics_congr _ e env2 rfl rfl, h2, ?_⟩
  intro m hm
  rw [h2] at hm
  rcases Collect_metrics_shape e env2 with h | ⟨data, hd, h⟩
  · rw [h] at hm
    exact Or.inl (List.mem_singleton.mp hm)
  · rw [h] at hm
    rcases List.mem_cons.mp hm with hm | hm
    · exact Or.inl hm
    · obtain ⟨v, hv, rfl⟩ := List.mem_map.mp hm
      exact Or.inr ⟨data, hd, v, hv, rfl⟩

end Proktologe
